import Mathlib

/-!
Verification of the simulation core of the pistachio.rocks arcade game.

The definitions below are a shallow embedding of the TypeScript sources:
numbers are modelled as exact rationals, the two `Math.random()` rolls that
decide golden hits and blocks are surfaced as explicit boolean parameters,
and the per-tick damage / heal resolution of `gameLoop`
(src/hooks/useGameLogic.ts) becomes a step function on an explicit state.
-/

namespace Pistachio

/-- JavaScript's Math.round: round half toward positive infinity. -/
def jsRound (q : ℚ) : ℚ := ((⌊q + 1/2⌋ : ℤ) : ℚ)

/-! Constants from src/constants.ts. -/

def GAME_HEIGHT : ℚ := 700
def GROUND_HEIGHT : ℚ := 180
def PLAYER_WIDTH : ℚ := 40
def PLAYER_HEIGHT : ℚ := 50
def INITIAL_MAX_HEALTH : ℚ := 20
def ELEMENT_SPAWN_INTERVAL : ℚ := 450
def MIN_ELEMENT_SIZE : ℚ := 15
def MAX_ELEMENT_SIZE : ℚ := 40
def MIN_ELEMENT_SPEED : ℚ := 100
def MAX_ELEMENT_SPEED : ℚ := 250
def INITIAL_WATER_SPAWN_INTERVAL : ℚ := 2500
def WATER_DROP_SIZE : ℚ := 15
def WATER_HEAL_AMOUNT : ℚ := 2
def GOLDEN_TOUCH_CHANCE_INCREASE : ℚ := 5/100
def MAX_PLAYER_SPEED : ℚ := 300

/-- The four seasons (src/types.ts, `Season`). -/
inductive Season where
  | spring | summer | autumn | winter
deriving DecidableEq, Repr

/-- Game status values (src/types.ts, `GameStatus`); `enteringName` is the
state entered by `handleGameOver`, i.e. the game-over transition. -/
inductive GameStatus where
  | start | playing | levelUp | enteringName | highScores | instructions
  | characterSelect | about
deriving DecidableEq, Repr

/-- The special weather events (`currentEvent` strings in useGameLogic.ts). -/
inductive GameEventKind where
  | storm | thunderstorm | earthquake | blizzard | meteorShower
deriving DecidableEq, Repr

/-- Wind direction chosen when a storm starts. -/
inductive WindDir where
  | left | right
deriving DecidableEq, Repr

/-- Character starting-stat overrides (src/game/characters/factory.ts,
`CharacterStartingStats`); every field defaults to the absent-field value. -/
structure CharacterStartingStats where
  maxHealth : ℚ := 0
  maxSpeed : ℚ := 0
  extraLives : ℕ := 0
  blockChance : ℚ := 0
  bonusHeal : ℚ := 0
  goldenTouchChance : ℚ := 0
deriving DecidableEq, Repr

/-- A playable character, reduced to the fields the simulation reads
(src/game/characters/factory.ts, `Character`). -/
structure Character where
  id : String
  startingStats : CharacterStartingStats
deriving DecidableEq, Repr

/-- src/game/characters/pistachio.ts: no starting-stat overrides. -/
def PISTACHIO_CHARACTER : Character :=
  { id := "pistachio", startingStats := {} }

/-- src/game/characters/walnut.ts: starts with maxHealth override 5. -/
def WALNUT_CHARACTER : Character :=
  { id := "walnut", startingStats := { maxHealth := 5 } }

/-- src/game/characters/index.ts, `CHARACTERS`. -/
def CHARACTERS : List Character := [PISTACHIO_CHARACTER, WALNUT_CHARACTER]

/-- The player/run state mutated by the damage and heal branches of
`gameLoop`: player health and shell state, the run-level stat registers
`extraLives` and `maxHealth`, the snow slow timer, the two shell
animations, and the game status. -/
structure GState where
  health : ℚ
  isNaked : Bool
  extraLives : ℕ
  maxHealth : ℚ
  playerSlowTimer : ℚ
  shellBreakAnim : Bool
  shellReformAnim : Bool
  status : GameStatus
deriving DecidableEq, Repr

/-- State installed by `startGame` (useGameLogic.ts lines 199-263): the
player comes from `getInitialPlayerState` (health 0, naked) and the stat
registers are reset from the character's starting stats. -/
def startGameState (c : Character) : GState :=
  { health := 0
    isNaked := true
    extraLives := c.startingStats.extraLives
    maxHealth := INITIAL_MAX_HEALTH + c.startingStats.maxHealth
    playerSlowTimer := 0
    shellBreakAnim := false
    shellReformAnim := false
    status := .playing }

/-- State part of the rock/meteor collision resolution (useGameLogic.ts
lines 1007-1093): game over if naked, otherwise the block roll negates
damage, otherwise subtract round(size/10), cascading into an extra-life
full restore or a shell break when health would reach 0. -/
def hitRockState (s : GState) (size : ℚ) (blocked : Bool) : GState :=
  if s.isNaked then { s with status := .enteringName }
  else if blocked then s
  else
    let damage := jsRound (size / 10)
    let newHealth := max 0 (s.health - damage)
    if newHealth ≤ 0 then
      if 0 < s.extraLives then
        { s with health := s.maxHealth, extraLives := s.extraLives - 1 }
      else
        { s with
            health := 0, isNaked := true,
            shellBreakAnim := if 0 < s.health then true else s.shellBreakAnim }
    else { s with health := newHealth }

/-- Points awarded for smashing a rock of the given size (useGameLogic.ts
lines 1012-1018): round(size/10), times 10 on a golden-touch roll. -/
def hitRockPoints (size : ℚ) (golden : Bool) : ℚ :=
  jsRound (size / 10) * (if golden then 10 else 1)

/-- Whether this hit starts the shell-break animation (useGameLogic.ts
lines 1066-1084): only in the fatal unblocked branch with no extra lives,
and only when pre-hit health was positive. -/
def hitRockAnim (s : GState) (size : ℚ) (blocked : Bool) : Bool :=
  if s.isNaked then false
  else if blocked then false
  else if max 0 (s.health - jsRound (size / 10)) ≤ 0 then
    if 0 < s.extraLives then false else decide (0 < s.health)
  else false

/-- Rock/meteor collision resolution (useGameLogic.ts lines 1007-1093).
`golden` and `blocked` are the outcomes of the goldenTouch and blockChance
random rolls. Returns the next state, the points awarded (no points while
naked: that branch is an immediate game over), and whether the shell-break
animation was triggered by this hit. -/
def hitRock (s : GState) (size : ℚ) (golden blocked : Bool) :
    GState × ℚ × Bool :=
  (hitRockState s size blocked,
   if s.isNaked then 0 else hitRockPoints size golden,
   hitRockAnim s size blocked)

/-- Lightning-strike resolution at strike time (useGameLogic.ts lines
1152-1194). `overlap` records whether the player's x-span intersects the
strike's x-span. -/
def lightningHit (s : GState) (overlap : Bool) : GState :=
  if overlap then
    if s.isNaked then { s with status := .enteringName }
    else
      let damage : ℚ := 10
      let newHealth := max 0 (s.health - damage)
      if newHealth ≤ 0 then
        if 0 < s.extraLives then
          { s with health := s.maxHealth, extraLives := s.extraLives - 1 }
        else { s with health := 0, isNaked := true }
      else { s with health := newHealth }
  else s

/-- One burning-patch damage application while the grounded player overlaps
a patch (useGameLogic.ts lines 1199-1246): 5 damage per second times the
frame's delta time, applied only if it actually lowers health. -/
def burningPatchTick (s : GState) (dt : ℚ) : GState :=
  let damagePerSecond : ℚ := 5
  let damage := damagePerSecond * dt
  let newHealth := max 0 (s.health - damage)
  if newHealth < s.health then
    if newHealth ≤ 0 then
      if 0 < s.extraLives then
        { s with health := s.maxHealth, extraLives := s.extraLives - 1 }
      else { s with health := 0, isNaked := true }
    else { s with health := newHealth }
  else s

/-- Seasonal scaling of the base water heal (useGameLogic.ts lines
1097-1099: summer halves it, autumn multiplies by 1.5). -/
def seasonHealScale : Season → ℚ
  | .summer => 1/2
  | .autumn => 3/2
  | _ => 1

/-- Water/snow collision resolution (useGameLogic.ts lines 1094-1129):
always heals by the season-scaled base amount plus `bonusHeal`, clamped at
`maxHealth`; snow sets the slow timer to 2.0 s; a naked player whose
resulting health is positive gets the shell back (reform animation). -/
def collectWater (s : GState) (isSnow : Bool) (season : Season)
    (bonusHeal : ℚ) : GState :=
  let baseHeal := WATER_HEAL_AMOUNT * seasonHealScale season
  let totalHealAmount := baseHeal + bonusHeal
  let slow := if isSnow then 2 else s.playerSlowTimer
  let newHealth := min s.maxHealth (s.health + totalHealAmount)
  if 0 < newHealth ∧ s.isNaked then
    { s with
        health := newHealth, isNaked := false, playerSlowTimer := slow,
        shellBreakAnim := false, shellReformAnim := true }
  else if 0 < newHealth ∧ ¬s.isNaked then
    { s with
        health := newHealth, playerSlowTimer := slow,
        shellBreakAnim := false }
  else
    { s with health := newHealth, playerSlowTimer := slow }

/-- One photosynthesis heal pulse (useGameLogic.ts lines 773-796): fires
only while shelled and below max health, healing `1 * photosynthesisLevel`,
clamped at max health and applied only when it raises health. -/
def photosynthesisTick (s : GState) (level : ℕ) : GState :=
  if 0 < level ∧ s.isNaked = false ∧ s.health < s.maxHealth then
    let healAmount : ℚ := 1 * level
    let newHealth := min s.maxHealth (s.health + healAmount)
    if s.health < newHealth then { s with health := newHealth } else s
  else s

/-- The extraLife branch of `handleSkillSelect` as it affects run state. -/
def applyExtraLife (s : GState) : GState :=
  { s with extraLives := s.extraLives + 1 }

/-- The shellFortification branch of `handleSkillSelect` as it affects run
state. -/
def applyShellFortification (s : GState) : GState :=
  { s with maxHealth := s.maxHealth + 5 }

/-- One per-tick outcome affecting the player's health/shell state, in the
order the claims enumerate them: rock or meteor damage, lightning damage,
burning-patch damage, water/snow heals, photosynthesis heals, and the two
skill pickups that change the registers the cascade reads. -/
inductive GEvent where
  | rock (size : ℚ) (golden blocked : Bool)
  | lightning (overlap : Bool)
  | burn (dt : ℚ)
  | water (isSnow : Bool) (season : Season) (bonusHeal : ℚ)
  | photo (level : ℕ)
  | extraLifeSkill
  | shellFortSkill
deriving DecidableEq, Repr

/-- Ranges the game guarantees for the event parameters: element sizes,
frame delta times and the bonus-heal register are nonnegative. -/
def GEvent.Valid : GEvent → Prop
  | .rock size _ _ => 0 ≤ size
  | .burn dt => 0 ≤ dt
  | .water _ _ bonusHeal => 0 ≤ bonusHeal
  | _ => True

instance : DecidablePred GEvent.Valid := by
  intro e; cases e <;> simp only [GEvent.Valid] <;> infer_instance

/-- Advance the run state by one event; the loop body only runs while the
status is `playing`. -/
def step (s : GState) (e : GEvent) : GState :=
  if s.status = .playing then
    match e with
    | .rock size _golden blocked => hitRockState s size blocked
    | .lightning overlap => lightningHit s overlap
    | .burn dt => burningPatchTick s dt
    | .water isSnow season bonusHeal => collectWater s isSnow season bonusHeal
    | .photo level => photosynthesisTick s level
    | .extraLifeSkill => applyExtraLife s
    | .shellFortSkill => applyShellFortification s
  else s

/-- Run a whole sequence of per-tick outcomes. -/
def run (s : GState) (es : List GEvent) : GState := es.foldl step s

/-- The health/shell invariant of the spec: health stays in
[0, maxHealth], and the shell is missing exactly while health is 0 (the
positive max-health bound is carried along because the extra-life restore
needs it). -/
def HealthInv (s : GState) : Prop :=
  0 ≤ s.health ∧ s.health ≤ s.maxHealth ∧ (s.isNaked = true ↔ s.health = 0) ∧
    0 < s.maxHealth

instance : DecidablePred HealthInv := by
  intro s; unfold HealthInv; infer_instance

theorem jsRound_nonneg {q : ℚ} (h : 0 ≤ q) : 0 ≤ jsRound q := by
  unfold jsRound
  have hfl : (0 : ℤ) ≤ ⌊q + 1/2⌋ := Int.le_floor.mpr (by push_cast; linarith)
  exact_mod_cast hfl

theorem hitRockState_healthInv (s : GState) (size : ℚ) (blocked : Bool)
    (hsize : 0 ≤ size) (h : HealthInv s) :
    HealthInv (hitRockState s size blocked) := by
  obtain ⟨h0, h1, h2, h3⟩ := h
  have hd : 0 ≤ jsRound (size / 10) :=
    jsRound_nonneg (div_nonneg hsize (by norm_num))
  unfold hitRockState
  dsimp only
  split_ifs with hn hb hz hl ha
  all_goals unfold HealthInv
  all_goals try dsimp only
  · exact ⟨h0, h1, h2, h3⟩
  · exact ⟨h0, h1, h2, h3⟩
  · simp only [Bool.not_eq_true] at hn
    refine ⟨le_of_lt h3, le_refl _, ?_, h3⟩
    simp only [hn, Bool.false_eq_true, false_iff]
    exact ne_of_gt h3
  · refine ⟨le_refl _, le_of_lt h3, by simp, h3⟩
  · refine ⟨le_refl _, le_of_lt h3, by simp, h3⟩
  · push_neg at hz
    simp only [Bool.not_eq_true] at hn
    refine ⟨le_max_left _ _, max_le (le_of_lt h3) (by linarith), ?_, h3⟩
    simp only [hn, Bool.false_eq_true, false_iff]
    exact ne_of_gt hz

theorem lightningHit_healthInv (s : GState) (overlap : Bool)
    (h : HealthInv s) : HealthInv (lightningHit s overlap) := by
  obtain ⟨h0, h1, h2, h3⟩ := h
  unfold lightningHit
  dsimp only
  split_ifs with ho hn hz hl
  all_goals unfold HealthInv
  all_goals try dsimp only
  · exact ⟨h0, h1, h2, h3⟩
  · simp only [Bool.not_eq_true] at hn
    refine ⟨le_of_lt h3, le_refl _, ?_, h3⟩
    simp only [hn, Bool.false_eq_true, false_iff]
    exact ne_of_gt h3
  · refine ⟨le_refl _, le_of_lt h3, by simp, h3⟩
  · push_neg at hz
    simp only [Bool.not_eq_true] at hn
    refine ⟨le_max_left _ _, max_le (le_of_lt h3) (by linarith), ?_, h3⟩
    simp only [hn, Bool.false_eq_true, false_iff]
    exact ne_of_gt hz
  · exact ⟨h0, h1, h2, h3⟩

theorem burningPatchTick_healthInv (s : GState) (dt : ℚ)
    (h : HealthInv s) : HealthInv (burningPatchTick s dt) := by
  obtain ⟨h0, h1, h2, h3⟩ := h
  unfold burningPatchTick
  dsimp only
  split_ifs with hlow hz hl
  all_goals unfold HealthInv
  all_goals try dsimp only
  · have hpos : 0 < s.health := lt_of_le_of_lt (le_max_left _ _) hlow
    have hn : s.isNaked = false := by
      cases hbn : s.isNaked
      · rfl
      · exact absurd (h2.mp hbn) (ne_of_gt hpos)
    refine ⟨le_of_lt h3, le_refl _, ?_, h3⟩
    simp only [hn, Bool.false_eq_true, false_iff]
    exact ne_of_gt h3
  · refine ⟨le_refl _, le_of_lt h3, by simp, h3⟩
  · push_neg at hz
    have hpos : 0 < s.health := lt_of_le_of_lt (le_max_left _ _) hlow
    have hn : s.isNaked = false := by
      cases hbn : s.isNaked
      · rfl
      · exact absurd (h2.mp hbn) (ne_of_gt hpos)
    refine ⟨le_max_left _ _, le_trans (le_of_lt hlow) h1, ?_, h3⟩
    simp only [hn, Bool.false_eq_true, false_iff]
    exact ne_of_gt hz
  · exact ⟨h0, h1, h2, h3⟩

theorem collectWater_healthInv (s : GState) (isSnow : Bool) (season : Season)
    (bonusHeal : ℚ) (hb : 0 ≤ bonusHeal) (h : HealthInv s) :
    HealthInv (collectWater s isSnow season bonusHeal) := by
  obtain ⟨h0, h1, h2, h3⟩ := h
  have hscale : 1/2 ≤ seasonHealScale season := by
    cases season <;> norm_num [seasonHealScale]
  have hheal : 0 < WATER_HEAL_AMOUNT * seasonHealScale season + bonusHeal := by
    unfold WATER_HEAL_AMOUNT; nlinarith
  have hmin : 0 < min s.maxHealth
      (s.health + (WATER_HEAL_AMOUNT * seasonHealScale season + bonusHeal)) :=
    lt_min h3 (by linarith)
  have hne := ne_of_gt hmin
  unfold collectWater
  dsimp only
  split_ifs with hcase hs1 hcase2 hs2 hs3
  all_goals unfold HealthInv
  all_goals try dsimp only
  all_goals refine ⟨?_, ?_, ?_, ?_⟩
  all_goals first
    | exact le_of_lt hmin
    | exact min_le_left _ _
    | exact h3
    | simp_all [Bool.not_eq_true]

theorem photosynthesisTick_healthInv (s : GState) (level : ℕ)
    (h : HealthInv s) : HealthInv (photosynthesisTick s level) := by
  obtain ⟨h0, h1, h2, h3⟩ := h
  unfold photosynthesisTick
  dsimp only
  split_ifs with hg hup
  all_goals unfold HealthInv
  all_goals try dsimp only
  · refine ⟨le_trans h0 (le_of_lt hup), min_le_left _ _, ?_, h3⟩
    simp only [hg.2.1, Bool.false_eq_true, false_iff]
    exact ne_of_gt (lt_of_le_of_lt h0 hup)
  · exact ⟨h0, h1, h2, h3⟩
  · exact ⟨h0, h1, h2, h3⟩

theorem step_healthInv (s : GState) (e : GEvent) (hv : e.Valid)
    (h : HealthInv s) : HealthInv (step s e) := by
  unfold step
  split_ifs with hst
  · cases e with
    | rock size golden blocked => exact hitRockState_healthInv s size blocked hv h
    | lightning overlap => exact lightningHit_healthInv s overlap h
    | burn dt => exact burningPatchTick_healthInv s dt h
    | water isSnow season bonusHeal => exact collectWater_healthInv s isSnow season bonusHeal hv h
    | photo level => exact photosynthesisTick_healthInv s level h
    | extraLifeSkill => exact ⟨h.1, h.2.1, h.2.2.1, h.2.2.2⟩
    | shellFortSkill =>
        obtain ⟨h0, h1, h2, h3⟩ := h
        exact ⟨h0, by dsimp only [applyShellFortification]; linarith,
               h2, by dsimp only [applyShellFortification]; linarith⟩
  · exact h

theorem run_healthInv (s : GState) (es : List GEvent)
    (hv : ∀ e ∈ es, e.Valid) (h : HealthInv s) : HealthInv (run s es) := by
  induction es generalizing s with
  | nil => exact h
  | cons e es ih =>
      exact ih (step s e) (fun x hx => hv x (List.mem_cons_of_mem e hx))
        (step_healthInv s e (hv e (List.mem_cons_self e es)) h)

theorem startGameState_healthInv (c : Character) (hc : c ∈ CHARACTERS) :
    HealthInv (startGameState c) := by
  simp only [CHARACTERS, List.mem_cons, List.not_mem_nil, or_false] at hc
  have hfields : ∀ q : ℚ, 0 ≤ q →
      HealthInv { health := 0, isNaked := true, extraLives := 0,
                  maxHealth := INITIAL_MAX_HEALTH + q, playerSlowTimer := 0,
                  shellBreakAnim := false, shellReformAnim := false,
                  status := .playing } := by
    intro q hq
    refine ⟨le_refl 0, ?_, by simp, ?_⟩ <;>
      simp only [INITIAL_MAX_HEALTH] <;> linarith
  rcases hc with hc | hc <;> subst hc
  · exact hfields 0 (le_refl 0)
  · exact hfields 5 (by norm_num)

/-- A sample run used to instantiate the universally quantified theorems:
a heal, a rock hit, a lightning hit, a burning-patch tick, both skill
pickups, a photosynthesis pulse and a snow pickup. -/
def demoEvents : List GEvent :=
  [.water false .spring 0, .rock 40 false false, .lightning true,
   .burn (1/10), .extraLifeSkill, .shellFortSkill, .photo 1,
   .water true .winter 0]

/-- C1: for every reachable tick of the simulation — any sequence of
rock/meteor damage, lightning damage, burning-patch damage, water/snow
heals, photosynthesis heals and extra-life consumptions, starting from the
state `startGame` installs for a selectable character — the player's
health stays in the closed interval [0, maxHealth], and isNaked is true
exactly when health is 0 (equivalently: until a heal raises health above
0 again, every naked-clearing heal making health positive). -/
theorem C1_health_shell_invariant (c : Character) (hc : c ∈ CHARACTERS)
    (es : List GEvent) (hv : ∀ e ∈ es, e.Valid) :
    0 ≤ (run (startGameState c) es).health ∧
    (run (startGameState c) es).health ≤ (run (startGameState c) es).maxHealth ∧
    ((run (startGameState c) es).isNaked = true ↔
      (run (startGameState c) es).health = 0) := by
  have h := run_healthInv (startGameState c) es hv (startGameState_healthInv c hc)
  exact ⟨h.1, h.2.1, h.2.2.1⟩

/-- Instantiation of the C1 invariant on a concrete run. -/
theorem C1_health_shell_invariant_witness :
    0 ≤ (run (startGameState PISTACHIO_CHARACTER) demoEvents).health ∧
    (run (startGameState PISTACHIO_CHARACTER) demoEvents).health ≤
      (run (startGameState PISTACHIO_CHARACTER) demoEvents).maxHealth ∧
    ((run (startGameState PISTACHIO_CHARACTER) demoEvents).isNaked = true ↔
      (run (startGameState PISTACHIO_CHARACTER) demoEvents).health = 0) :=
  C1_health_shell_invariant PISTACHIO_CHARACTER
    (by simp [CHARACTERS])
    demoEvents
    (by
      intro e he
      fin_cases he <;> norm_num [GEvent.Valid])

/-- The health field of a water/snow pickup is always the clamped heal. -/
theorem collectWater_health (s : GState) (isSnow : Bool) (season : Season)
    (bonusHeal : ℚ) :
    (collectWater s isSnow season bonusHeal).health =
      min s.maxHealth
        (s.health + (WATER_HEAL_AMOUNT * seasonHealScale season + bonusHeal)) := by
  unfold collectWater
  dsimp only
  split_ifs <;> rfl

/-- The slow timer after a pickup: 2.0 s for snow, unchanged for water. -/
theorem collectWater_slowTimer (s : GState) (isSnow : Bool) (season : Season)
    (bonusHeal : ℚ) :
    (collectWater s isSnow season bonusHeal).playerSlowTimer =
      if isSnow then 2 else s.playerSlowTimer := by
  unfold collectWater
  dsimp only
  split_ifs <;> rfl

/-- The shell state after a pickup: cleared exactly when the player was
naked and the resulting health is positive. -/
theorem collectWater_isNaked (s : GState) (isSnow : Bool) (season : Season)
    (bonusHeal : ℚ) :
    (collectWater s isSnow season bonusHeal).isNaked =
      if 0 < min s.maxHealth
            (s.health + (WATER_HEAL_AMOUNT * seasonHealScale season + bonusHeal))
          ∧ s.isNaked = true
      then false else s.isNaked := by
  unfold collectWater
  dsimp only
  split_ifs <;> rfl

/-- The reform animation starts exactly when the shell is restored. -/
theorem collectWater_reformAnim (s : GState) (isSnow : Bool) (season : Season)
    (bonusHeal : ℚ) :
    (collectWater s isSnow season bonusHeal).shellReformAnim =
      if 0 < min s.maxHealth
            (s.health + (WATER_HEAL_AMOUNT * seasonHealScale season + bonusHeal))
          ∧ s.isNaked = true
      then true else s.shellReformAnim := by
  unfold collectWater
  dsimp only
  split_ifs <;> rfl

/-- Scenario state of the C2 spec sentence: health 4, max health 20, no
extra lives, shell intact. -/
def scenarioC2 : GState :=
  { health := 4, isNaked := false, extraLives := 0, maxHealth := 20,
    playerSlowTimer := 0, shellBreakAnim := false, shellReformAnim := false,
    status := .playing }

/-- C2: a rock or meteor hitting a shelled player awards
round(size/10) points, times 10 on a golden roll; a successful block roll
negates all damage; otherwise round(size/10) is subtracted: if health
would drop to 0 or below, an available extra life is consumed and health
fully restored, and with no extra lives health is pinned to 0, the shell
breaks and the shell-break animation starts. In particular health=4,
maxHealth=20, extraLives=0 and damage 10 gives health 0, isNaked true and
the animation triggered. -/
theorem C2_rock_meteor_resolution (s : GState) (size : ℚ)
    (golden blocked : Bool) (hn : s.isNaked = false) (hh : 0 < s.health) :
    (hitRock s size golden blocked).2.1 =
        jsRound (size / 10) * (if golden then 10 else 1) ∧
    (blocked = true → (hitRock s size golden blocked).1 = s) ∧
    (blocked = false → s.health ≤ jsRound (size / 10) → 0 < s.extraLives →
        (hitRock s size golden blocked).1.health = s.maxHealth ∧
        (hitRock s size golden blocked).1.extraLives = s.extraLives - 1 ∧
        (hitRock s size golden blocked).1.isNaked = false) ∧
    (blocked = false → s.health ≤ jsRound (size / 10) → s.extraLives = 0 →
        (hitRock s size golden blocked).1.health = 0 ∧
        (hitRock s size golden blocked).1.isNaked = true ∧
        (hitRock s size golden blocked).2.2 = true) ∧
    (blocked = false → jsRound (size / 10) < s.health →
        (hitRock s size golden blocked).1.health =
          s.health - jsRound (size / 10) ∧
        (hitRock s size golden blocked).1.isNaked = false) ∧
    ((hitRock scenarioC2 100 false false).1.health = 0 ∧
     (hitRock scenarioC2 100 false false).1.isNaked = true ∧
     (hitRock scenarioC2 100 false false).2.2 = true) := by
  have h100 : jsRound ((100 : ℚ) / 10) = 10 := by norm_num [jsRound]
  refine ⟨?_, ?_, ?_, ?_, ?_, ?_⟩
  · simp [hitRock, hitRockPoints, hn]
  · intro hb
    simp [hitRock, hitRockState, hn, hb]
  · intro hb hd hl
    have hcond : max 0 (s.health - jsRound (size / 10)) ≤ 0 :=
      max_le (le_refl 0) (by linarith)
    simp [hitRock, hitRockState, hn, hb, hcond, hl]
  · intro hb hd hl
    have hcond : max 0 (s.health - jsRound (size / 10)) ≤ 0 :=
      max_le (le_refl 0) (by linarith)
    simp [hitRock, hitRockState, hitRockAnim, hn, hb, hcond, hl, hh]
  · intro hb hd
    have hmax : max 0 (s.health - jsRound (size / 10)) =
        s.health - jsRound (size / 10) := max_eq_right (by linarith)
    have hcond : ¬max 0 (s.health - jsRound (size / 10)) ≤ 0 := by
      rw [hmax]; linarith
    have hgt : ¬s.health ≤ jsRound (size / 10) := not_le.mpr hd
    simp [hitRock, hitRockState, hn, hb, hcond, hmax, hgt]
  · have h10 : jsRound ((10 : ℚ)) = 10 := by norm_num [jsRound]
    refine ⟨?_, ?_, ?_⟩ <;>
      norm_num [hitRock, hitRockState, hitRockAnim, scenarioC2, h10, max_def]

/-- Instantiation of the C2 resolution at the spec scenario itself. -/
theorem C2_rock_meteor_resolution_witness :
    (hitRock scenarioC2 100 false false).2.1 =
        jsRound ((100 : ℚ) / 10) * (if false then 10 else 1) ∧
    (false = true → (hitRock scenarioC2 100 false false).1 = scenarioC2) ∧
    (false = false → scenarioC2.health ≤ jsRound ((100 : ℚ) / 10) →
        0 < scenarioC2.extraLives →
        (hitRock scenarioC2 100 false false).1.health = scenarioC2.maxHealth ∧
        (hitRock scenarioC2 100 false false).1.extraLives =
          scenarioC2.extraLives - 1 ∧
        (hitRock scenarioC2 100 false false).1.isNaked = false) ∧
    (false = false → scenarioC2.health ≤ jsRound ((100 : ℚ) / 10) →
        scenarioC2.extraLives = 0 →
        (hitRock scenarioC2 100 false false).1.health = 0 ∧
        (hitRock scenarioC2 100 false false).1.isNaked = true ∧
        (hitRock scenarioC2 100 false false).2.2 = true) ∧
    (false = false → jsRound ((100 : ℚ) / 10) < scenarioC2.health →
        (hitRock scenarioC2 100 false false).1.health =
          scenarioC2.health - jsRound ((100 : ℚ) / 10) ∧
        (hitRock scenarioC2 100 false false).1.isNaked = false) ∧
    ((hitRock scenarioC2 100 false false).1.health = 0 ∧
     (hitRock scenarioC2 100 false false).1.isNaked = true ∧
     (hitRock scenarioC2 100 false false).2.2 = true) :=
  C2_rock_meteor_resolution scenarioC2 100 false false rfl (by norm_num [scenarioC2])

/-- Scenario state of the C6 spec sentence: naked with health 0. -/
def scenarioC6 : GState :=
  { health := 0, isNaked := true, extraLives := 0, maxHealth := 20,
    playerSlowTimer := 0, shellBreakAnim := false, shellReformAnim := false,
    status := .playing }

/-- C6: every water or snow collision heals by WATER_HEAL_AMOUNT scaled by
the season (0.5 summer, 1.5 autumn) plus the flat bonusHeal, clamped at
maxHealth; a snow pickup sets the slow timer to 2.0 s regardless of the
healing outcome; a naked player whose resulting health is positive gets
the shell back with the reform animation. In particular a naked player in
spring with bonusHeal 0 ends at health 2 with the shell reformed. -/
theorem C6_water_snow_heal (s : GState) (isSnow : Bool) (season : Season)
    (bonusHeal : ℚ) (hb : 0 ≤ bonusHeal) (hm : s.health ≤ s.maxHealth) :
    (collectWater s isSnow season bonusHeal).health =
        min s.maxHealth
          (s.health + (WATER_HEAL_AMOUNT * seasonHealScale season + bonusHeal)) ∧
    s.health ≤ (collectWater s isSnow season bonusHeal).health ∧
    (collectWater s isSnow season bonusHeal).health ≤ s.maxHealth ∧
    (isSnow = true →
        (collectWater s isSnow season bonusHeal).playerSlowTimer = 2) ∧
    (isSnow = false →
        (collectWater s isSnow season bonusHeal).playerSlowTimer =
          s.playerSlowTimer) ∧
    (s.isNaked = true → 0 < (collectWater s isSnow season bonusHeal).health →
        (collectWater s isSnow season bonusHeal).isNaked = false ∧
        (collectWater s isSnow season bonusHeal).shellReformAnim = true) ∧
    ((collectWater scenarioC6 false .spring 0).health = 2 ∧
     (collectWater scenarioC6 false .spring 0).isNaked = false) := by
  have hscale : 1/2 ≤ seasonHealScale season := by
    cases season <;> norm_num [seasonHealScale]
  have hheal : 0 ≤ WATER_HEAL_AMOUNT * seasonHealScale season + bonusHeal := by
    unfold WATER_HEAL_AMOUNT; nlinarith
  refine ⟨collectWater_health s isSnow season bonusHeal, ?_, ?_, ?_, ?_, ?_, ?_⟩
  · rw [collectWater_health]
    exact le_min hm (by linarith)
  · rw [collectWater_health]
    exact min_le_left _ _
  · intro hsnow
    rw [collectWater_slowTimer, hsnow]
    simp
  · intro hsnow
    rw [collectWater_slowTimer, hsnow]
    simp
  · intro hnk hpos
    rw [collectWater_health] at hpos
    rw [collectWater_isNaked, collectWater_reformAnim]
    rw [if_pos ⟨hpos, hnk⟩, if_pos ⟨hpos, hnk⟩]
    exact ⟨rfl, rfl⟩
  · constructor
    · rw [collectWater_health]
      norm_num [scenarioC6, seasonHealScale, WATER_HEAL_AMOUNT, min_def]
    · rw [collectWater_isNaked]
      norm_num [scenarioC6, seasonHealScale, WATER_HEAL_AMOUNT, min_def]

/-- Instantiation of the C6 heal resolution at the spec scenario itself. -/
theorem C6_water_snow_heal_witness :
    (collectWater scenarioC6 false .spring 0).health =
        min scenarioC6.maxHealth
          (scenarioC6.health +
            (WATER_HEAL_AMOUNT * seasonHealScale .spring + 0)) ∧
    scenarioC6.health ≤ (collectWater scenarioC6 false .spring 0).health ∧
    (collectWater scenarioC6 false .spring 0).health ≤ scenarioC6.maxHealth ∧
    (false = true → (collectWater scenarioC6 false .spring 0).playerSlowTimer = 2) ∧
    (false = false →
        (collectWater scenarioC6 false .spring 0).playerSlowTimer =
          scenarioC6.playerSlowTimer) ∧
    (scenarioC6.isNaked = true →
        0 < (collectWater scenarioC6 false .spring 0).health →
        (collectWater scenarioC6 false .spring 0).isNaked = false ∧
        (collectWater scenarioC6 false .spring 0).shellReformAnim = true) ∧
    ((collectWater scenarioC6 false .spring 0).health = 2 ∧
     (collectWater scenarioC6 false .spring 0).isNaked = false) :=
  C6_water_snow_heal scenarioC6 false .spring 0 (le_refl 0)
    (by norm_num [scenarioC6])

/-- The status after a rock/meteor collision: game over exactly when the
player was naked, with no extra-lives consultation in that branch. -/
theorem hitRockState_status (s : GState) (size : ℚ) (blocked : Bool) :
    (hitRockState s size blocked).status =
      if s.isNaked then .enteringName else s.status := by
  unfold hitRockState
  dsimp only
  split_ifs <;> rfl

/-- The status after a lightning strike: game over exactly when the strike
overlaps a naked player, again with no extra-lives consultation. -/
theorem lightningHit_status (s : GState) (overlap : Bool) :
    (lightningHit s overlap).status =
      if overlap then (if s.isNaked then .enteringName else s.status)
      else s.status := by
  unfold lightningHit
  dsimp only
  split_ifs <;> rfl

/-- Burning-patch damage never changes the game status. -/
theorem burningPatchTick_status (s : GState) (dt : ℚ) :
    (burningPatchTick s dt).status = s.status := by
  unfold burningPatchTick
  dsimp only
  split_ifs <;> rfl

/-- A water/snow pickup never changes the game status. -/
theorem collectWater_status (s : GState) (isSnow : Bool) (season : Season)
    (bonusHeal : ℚ) :
    (collectWater s isSnow season bonusHeal).status = s.status := by
  unfold collectWater
  dsimp only
  split_ifs <;> rfl

/-- A photosynthesis pulse never changes the game status. -/
theorem photosynthesisTick_status (s : GState) (level : ℕ) :
    (photosynthesisTick s level).status = s.status := by
  unfold photosynthesisTick
  dsimp only
  split_ifs <;> rfl

/-- Whether an event is a rock/meteor collision with the player. -/
def GEvent.isRockHit : GEvent → Bool
  | .rock _ _ _ => true
  | _ => false

/-- Whether an event is a lightning strike overlapping the player. -/
def GEvent.isLightningOverlap : GEvent → Bool
  | .lightning overlap => overlap
  | _ => false

/-- State in which the C3 counterexample is evaluated: a naked player who
holds one banked extra life during a running game (reachable by picking
the extraLife skill at a level-up reached while naked). -/
def cexNakedLife : GState :=
  { health := 0, isNaked := true, extraLives := 1, maxHealth := 20,
    playerSlowTimer := 0, shellBreakAnim := false, shellReformAnim := false,
    status := .playing }

/-- The same naked player with no extra lives, standing on a burning patch. -/
def cexNakedNoLife : GState := { cexNakedLife with extraLives := 0 }

/-- C3 as stated is false on the code: a hazard collision while naked ends
the run even when an extra life is available (the naked branch never
consults extraLives), and burning-patch damage never triggers the
game-over transition (a naked player on a patch takes no further damage
and keeps playing). -/
theorem C3_counterexample :
    cexNakedLife.isNaked = true ∧ 0 < cexNakedLife.extraLives ∧
    cexNakedLife.status = .playing ∧
    (step cexNakedLife (.rock 20 false false)).status = .enteringName ∧
    (step cexNakedLife (.lightning true)).status = .enteringName ∧
    cexNakedNoLife.isNaked = true ∧ cexNakedNoLife.extraLives = 0 ∧
    cexNakedNoLife.status = .playing ∧
    (step cexNakedNoLife (.burn 1)).status = .playing ∧
    (step cexNakedNoLife (.burn 1)).health = 0 := by
  refine ⟨rfl, by norm_num [cexNakedLife], rfl, ?_, ?_, rfl, rfl, rfl, ?_, ?_⟩ <;>
    norm_num [step, cexNakedLife, cexNakedNoLife, hitRockState, lightningHit,
      burningPatchTick, max_def]

/-- C3 amended: while the game is playing, a per-tick outcome triggers the
game-over transition exactly when it is a rock/meteor collision with a
naked player or a lightning strike overlapping a naked player — in both
cases regardless of remaining extra lives; burning-patch damage, heals,
photosynthesis and skill pickups never end the run. -/
theorem C3_game_over_condition (s : GState) (e : GEvent)
    (hs : s.status = .playing) :
    ((step s e).status = .enteringName ↔
      (s.isNaked = true ∧
        (e.isRockHit = true ∨ e.isLightningOverlap = true))) := by
  have hne : (GameStatus.playing = GameStatus.enteringName) = False := by
    simp
  cases e with
  | rock size golden blocked =>
      rw [step, if_pos hs, hitRockState_status]
      by_cases hn : s.isNaked = true <;>
        simp [hn, hs, GEvent.isRockHit, GEvent.isLightningOverlap, hne]
  | lightning overlap =>
      rw [step, if_pos hs, lightningHit_status]
      by_cases hn : s.isNaked = true <;> cases overlap <;>
        simp [hn, hs, GEvent.isRockHit, GEvent.isLightningOverlap, hne]
  | burn dt =>
      rw [step, if_pos hs, burningPatchTick_status, hs]
      simp [GEvent.isRockHit, GEvent.isLightningOverlap]
  | water isSnow season bonusHeal =>
      rw [step, if_pos hs, collectWater_status, hs]
      simp [GEvent.isRockHit, GEvent.isLightningOverlap]
  | photo level =>
      rw [step, if_pos hs, photosynthesisTick_status, hs]
      simp [GEvent.isRockHit, GEvent.isLightningOverlap]
  | extraLifeSkill =>
      rw [step, if_pos hs]
      simp [applyExtraLife, hs, GEvent.isRockHit, GEvent.isLightningOverlap]
  | shellFortSkill =>
      rw [step, if_pos hs]
      simp [applyShellFortification, hs, GEvent.isRockHit,
        GEvent.isLightningOverlap]

/-- Instantiation of the amended C3 characterization on a concrete state. -/
theorem C3_game_over_condition_witness :
    ((step cexNakedLife (.rock 20 false false)).status = .enteringName ↔
      (cexNakedLife.isNaked = true ∧
        ((GEvent.rock 20 false false).isRockHit = true ∨
         (GEvent.rock 20 false false).isLightningOverlap = true))) :=
  C3_game_over_condition cexNakedLife (.rock 20 false false) rfl

/-- Player record (src/types.ts, `PlayerState`). -/
structure PlayerState where
  x : ℚ
  y : ℚ
  yVelocity : ℚ
  xVelocity : ℚ
  health : ℚ
  isNaked : Bool
  characterId : String
deriving DecidableEq, Repr

/-- src/game/state.ts, `getInitialPlayerState`: centered on an 800-wide
field, grounded, at rest — and with health 0 and the shell already gone. -/
def getInitialPlayerState (characterId : String) : PlayerState :=
  { x := 800 / 2 - PLAYER_WIDTH / 2
    y := GROUND_HEIGHT
    yVelocity := 0
    xVelocity := 0
    health := 0
    isNaked := true
    characterId := characterId }

/-- The player record installed by `startGame` (useGameLogic.ts line 207):
the initial player with only the x coordinate recentered to the actual
viewport width. -/
def startGamePlayer (characterId : String) (width : ℚ) : PlayerState :=
  { getInitialPlayerState characterId with x := width / 2 - PLAYER_WIDTH / 2 }

/-- Whether an event is a water/snow pickup (the only heal that can clear
the naked state). -/
def GEvent.isWaterPickup : GEvent → Bool
  | .water _ _ _ => true
  | _ => false

/-- A run whose shell is broken (naked with health 0) and that has not
been healed: either still playing, or already at the game-over status. -/
def BrokenShellRun (s : GState) : Prop :=
  (s.isNaked = true ∧ s.health = 0 ∧ s.status = .playing) ∨
    s.status = .enteringName

theorem step_brokenShellRun (s : GState) (e : GEvent)
    (hw : e.isWaterPickup = false) (h : BrokenShellRun s) :
    BrokenShellRun (step s e) := by
  rcases h with ⟨hn, hh, hs⟩ | hs
  · cases e with
    | rock size golden blocked =>
        right
        rw [step, if_pos hs, hitRockState_status, if_pos hn]
    | lightning overlap =>
        cases overlap
        · left
          rw [step, if_pos hs]
          unfold lightningHit
          exact ⟨hn, hh, hs⟩
        · right
          rw [step, if_pos hs, lightningHit_status, if_pos rfl, if_pos hn]
    | burn dt =>
        left
        rw [step, if_pos hs]
        have hstuck : ¬max 0 (s.health - 5 * dt) < s.health := by
          rw [hh]
          exact not_lt.mpr (le_max_left _ _)
        unfold burningPatchTick
        dsimp only
        rw [if_neg hstuck]
        exact ⟨hn, hh, hs⟩
    | water isSnow season bonusHeal => simp [GEvent.isWaterPickup] at hw
    | photo level =>
        left
        rw [step, if_pos hs]
        unfold photosynthesisTick
        rw [if_neg (by simp [hn])]
        exact ⟨hn, hh, hs⟩
    | extraLifeSkill =>
        left
        rw [step, if_pos hs]
        exact ⟨hn, hh, hs⟩
    | shellFortSkill =>
        left
        rw [step, if_pos hs]
        exact ⟨hn, hh, hs⟩
  · right
    rw [step.eq_def, if_neg (by rw [hs]; exact fun hc => by cases hc)]
    exact hs

theorem run_brokenShellRun (s : GState) (es : List GEvent)
    (hw : ∀ e ∈ es, e.isWaterPickup = false) (h : BrokenShellRun s) :
    BrokenShellRun (run s es) := by
  induction es generalizing s with
  | nil => exact h
  | cons e es ih =>
      exact ih (step s e) (fun x hx => hw x (List.mem_cons_of_mem e hx))
        (step_brokenShellRun s e (hw e (List.mem_cons_self e es)) h)

/-- C10: `getInitialPlayerState` returns a player with health 0 and
isNaked true; `startGame` installs it changing only x; starting from that
state, after any sequence of non-heal outcomes, the next rock or meteor
collision puts the run at the game-over status. -/
theorem C10_run_starts_shell_broken (cid : String) (w : ℚ) (c : Character)
    (es : List GEvent) (hw : ∀ e ∈ es, e.isWaterPickup = false) :
    (getInitialPlayerState cid).health = 0 ∧
    (getInitialPlayerState cid).isNaked = true ∧
    (startGamePlayer cid w).health = 0 ∧
    (startGamePlayer cid w).isNaked = true ∧
    (startGamePlayer cid w).y = (getInitialPlayerState cid).y ∧
    (startGamePlayer cid w).xVelocity = (getInitialPlayerState cid).xVelocity ∧
    (startGamePlayer cid w).yVelocity = (getInitialPlayerState cid).yVelocity ∧
    (startGamePlayer cid w).characterId =
      (getInitialPlayerState cid).characterId ∧
    (startGameState c).health = 0 ∧
    (startGameState c).isNaked = true ∧
    (∀ size golden blocked,
      (step (run (startGameState c) es)
        (.rock size golden blocked)).status = .enteringName) := by
  refine ⟨rfl, rfl, rfl, rfl, rfl, rfl, rfl, rfl, rfl, rfl, ?_⟩
  intro size golden blocked
  have hb : BrokenShellRun (run (startGameState c) es) :=
    run_brokenShellRun (startGameState c) es hw (Or.inl ⟨rfl, rfl, rfl⟩)
  rcases hb with ⟨hn, hh, hs⟩ | hs
  · rw [step, if_pos hs, hitRockState_status, if_pos hn]
  · rw [step, if_neg (by rw [hs]; exact fun hc => by cases hc)]
    exact hs

/-- Instantiation of C10 on a concrete no-heal run. -/
theorem C10_run_starts_shell_broken_witness :
    (getInitialPlayerState "pistachio").health = 0 ∧
    (getInitialPlayerState "pistachio").isNaked = true ∧
    (startGamePlayer "pistachio" 800).health = 0 ∧
    (startGamePlayer "pistachio" 800).isNaked = true ∧
    (startGamePlayer "pistachio" 800).y =
      (getInitialPlayerState "pistachio").y ∧
    (startGamePlayer "pistachio" 800).xVelocity =
      (getInitialPlayerState "pistachio").xVelocity ∧
    (startGamePlayer "pistachio" 800).yVelocity =
      (getInitialPlayerState "pistachio").yVelocity ∧
    (startGamePlayer "pistachio" 800).characterId =
      (getInitialPlayerState "pistachio").characterId ∧
    (startGameState PISTACHIO_CHARACTER).health = 0 ∧
    (startGameState PISTACHIO_CHARACTER).isNaked = true ∧
    (∀ size golden blocked,
      (step (run (startGameState PISTACHIO_CHARACTER) [.lightning false])
        (.rock size golden blocked)).status = .enteringName) :=
  C10_run_starts_shell_broken "pistachio" 800 PISTACHIO_CHARACTER
    [.lightning false]
    (by intro e he; fin_cases he; rfl)

/-- Falling-element kinds (src/types.ts, `ElementType`). -/
inductive ElementType where
  | rock | water | snow | meteor
deriving DecidableEq, Repr

/-- Falling entity (src/types.ts, `ElementState`; the numeric id is not
needed by the collision loop). -/
structure ElementState where
  x : ℚ
  y : ℚ
  size : ℚ
  speed : ℚ
  type : ElementType
deriving DecidableEq, Repr

/-- An axis-aligned box in canvas coordinates. -/
structure Rect where
  x : ℚ
  y : ℚ
  width : ℚ
  height : ℚ
deriving DecidableEq, Repr

/-- Per-frame element motion (useGameLogic.ts line 991). -/
def moveElement (dt : ℚ) (el : ElementState) : ElementState :=
  { el with y := el.y + el.speed * dt }

/-- Vertical hitbox position (line 994): water drops use a half-size
offset, every other type (snow included) uses the raw y. -/
def elementYPos (el : ElementState) : ℚ :=
  if el.type = .water then el.y + el.size * (1/2) else el.y

/-- The element's square hitbox (line 997). -/
def elementHitbox (el : ElementState) : Rect :=
  { x := el.x, y := elementYPos el, width := el.size, height := el.size }

/-- The AABB intersection test of lines 999-1002, all four comparisons
inclusive. -/
def rectsIntersect (p q : Rect) : Bool :=
  decide (p.x ≤ q.x + q.width) && decide (q.x ≤ p.x + p.width) &&
    decide (p.y ≤ q.y + q.height) && decide (q.y ≤ p.y + p.height)

/-- Ground contact (lines 1133-1134; both branches of the source ternary
compute y + size). -/
def hitsGround (el : ElementState) : Bool :=
  decide (GAME_HEIGHT - GROUND_HEIGHT ≤ el.y + el.size)

/-- The element loop of useGameLogic.ts lines 990-1150, restricted to the
flags the claim is about: each element is moved, collision-tested against
the player hitbox only while no element has collided yet this frame
(`playerHitThisFrame`), and ground-tested unconditionally. Returns each
moved element with its collision and ground-contact flags. -/
def processElements (pb : Rect) (dt : ℚ) :
    Bool → List ElementState → List (ElementState × Bool × Bool)
  | _, [] => []
  | playerHit, el :: rest =>
      let newEl := moveElement dt el
      let collided := !playerHit && rectsIntersect pb (elementHitbox newEl)
      (newEl, collided, hitsGround newEl) ::
        processElements pb dt (playerHit || collided) rest

/-- Spec-side characterization of the collision tie-break, for comparison
with the loop above: mark the first true entry of a boolean list and clear
every other entry. -/
def markFirst : List Bool → List Bool
  | [] => []
  | b :: bs =>
      if b then true :: bs.map (fun _ => false) else false :: markFirst bs

theorem processElements_hit_none (pb : Rect) (dt : ℚ)
    (els : List ElementState) :
    (processElements pb dt true els).map (fun r => r.2.1) =
      els.map (fun _ => false) := by
  induction els with
  | nil => rfl
  | cons el rest ih => simp [processElements, ih]

theorem processElements_collided_markFirst (pb : Rect) (dt : ℚ)
    (els : List ElementState) :
    (processElements pb dt false els).map (fun r => r.2.1) =
      markFirst (els.map
        (fun el => rectsIntersect pb (elementHitbox (moveElement dt el)))) := by
  induction els with
  | nil => rfl
  | cons el rest ih =>
      cases hc : rectsIntersect pb (elementHitbox (moveElement dt el))
      · simp [processElements, markFirst, hc, ih]
      · simp [processElements, markFirst, hc, processElements_hit_none]

theorem markFirst_count_true (bs : List Bool) :
    (markFirst bs).count true ≤ 1 := by
  induction bs with
  | nil => simp [markFirst]
  | cons b bs ih =>
      cases b
      · simpa [markFirst] using ih
      · have hz : (List.replicate bs.length false).count true = 0 := by
          simp [List.count_replicate]
        simp [markFirst, List.count_cons, hz]

theorem processElements_length (pb : Rect) (dt : ℚ) (hit : Bool)
    (els : List ElementState) :
    (processElements pb dt hit els).length = els.length := by
  induction els generalizing hit with
  | nil => rfl
  | cons el rest ih => simp [processElements, ih]

theorem processElements_ground (pb : Rect) (dt : ℚ) (hit : Bool)
    (els : List ElementState) :
    ∀ r ∈ processElements pb dt hit els, r.2.2 = hitsGround r.1 := by
  induction els generalizing hit with
  | nil => intro r hr; cases hr
  | cons el rest ih =>
      intro r hr
      rcases List.mem_cons.mp hr with hr | hr
      · subst hr; rfl
      · exact ih _ r hr

/-- C4: in a single tick at most one falling entity triggers the
player-collision branch; the collision flags are exactly "mark the first
entity, in iteration order, whose moved AABB intersects the player
hitbox"; no entity is dropped from the pass, and every entity — the
collided one and all later ones included — is still checked for ground
contact. -/
theorem C4_collision_exclusivity (pb : Rect) (dt : ℚ)
    (els : List ElementState) :
    ((processElements pb dt false els).map (fun r => r.2.1)).count true ≤ 1 ∧
    (processElements pb dt false els).map (fun r => r.2.1) =
      markFirst (els.map
        (fun el => rectsIntersect pb (elementHitbox (moveElement dt el)))) ∧
    (processElements pb dt false els).length = els.length ∧
    (∀ r ∈ processElements pb dt false els, r.2.2 = hitsGround r.1) := by
  refine ⟨?_, processElements_collided_markFirst pb dt els,
    processElements_length pb dt false els,
    processElements_ground pb dt false els⟩
  rw [processElements_collided_markFirst pb dt els]
  exact markFirst_count_true _

/-- The player hitbox used in the C4 instantiation. -/
def demoPlayerBox : Rect := { x := 0, y := 470, width := 40, height := 50 }

/-- Three elements, the first two overlapping the demo player hitbox. -/
def demoElements : List ElementState :=
  [{ x := 10, y := 480, size := 20, speed := 0, type := .rock },
   { x := 5, y := 490, size := 20, speed := 0, type := .rock },
   { x := 400, y := 100, size := 15, speed := 0, type := .water }]

/-- Instantiation of C4 on a tick where two entities overlap the player. -/
theorem C4_collision_exclusivity_witness :
    ((processElements demoPlayerBox 0 false demoElements).map
        (fun r => r.2.1)).count true ≤ 1 ∧
    (processElements demoPlayerBox 0 false demoElements).map
        (fun r => r.2.1) =
      markFirst (demoElements.map
        (fun el =>
          rectsIntersect demoPlayerBox (elementHitbox (moveElement 0 el)))) ∧
    (processElements demoPlayerBox 0 false demoElements).length =
      demoElements.length ∧
    (∀ r ∈ processElements demoPlayerBox 0 false demoElements,
      r.2.2 = hitsGround r.1) :=
  C4_collision_exclusivity demoPlayerBox 0 demoElements

/-- Season index of a month (useGameLogic.ts lines 147 and 271). -/
def seasonIndex (monthCounter : ℕ) : ℕ := ((monthCounter - 1) / 3) % 4

/-- Year of a month (line 270). -/
def yearOf (monthCounter : ℕ) : ℕ := (monthCounter - 1) / 12 + 1

/-- The meteor-year test of line 275. -/
def isMeteorYear (monthCounter : ℕ) : Bool :=
  decide (2 ≤ yearOf monthCounter) &&
    decide ((yearOf monthCounter - 2) % 3 = 0)

/-- The event-trigger effect of useGameLogic.ts lines 266-330: while
playing, at the third month of a season block, enter the meteor shower on
a meteor-year summer slot and otherwise the seasonal event; a storm also
picks a wind direction from the `windRoll` coin (Math.random() < 0.5 means
left). -/
def scheduledEvent (status : GameStatus) (monthCounter : ℕ)
    (windRoll : Bool) : Option (GameEventKind × Option WindDir) :=
  if status ≠ .playing then none
  else if (monthCounter - 1) % 3 = 2 then
    if isMeteorYear monthCounter && decide (seasonIndex monthCounter = 1) then
      some (.meteorShower, none)
    else
      match seasonIndex monthCounter with
      | 0 => some (.storm, some (if windRoll then .left else .right))
      | 1 => some (.thunderstorm, none)
      | 2 => some (.earthquake, none)
      | 3 => some (.blizzard, none)
      | _ => none
  else none

/-- The season cycle the spec sentence names. -/
def seasonCycle : ℕ → GameEventKind
  | 0 => .storm
  | 1 => .thunderstorm
  | 2 => .earthquake
  | _ => .blizzard

/-- C5: while playing, an event is entered exactly at the third month of
every 3-month season block; on a meteor-year summer slot it is the meteor
shower, otherwise the event determined by the season index (spring storm
with a random wind direction, summer thunderstorm, autumn earthquake,
winter blizzard); hence over months 1..36 the non-meteor events at months
3, 6, ..., 36 follow the repeating cycle storm, thunderstorm, earthquake,
blizzard, and no event triggers while the status is not playing. -/
theorem C5_event_schedule (m : ℕ) (r : Bool) (h1 : 1 ≤ m) (h36 : m ≤ 36) :
    ((scheduledEvent .playing m r).isSome = true ↔ (m - 1) % 3 = 2) ∧
    ((m - 1) % 3 = 2 → 2 ≤ yearOf m → (yearOf m - 2) % 3 = 0 →
        seasonIndex m = 1 →
        (scheduledEvent .playing m r).map Prod.fst = some .meteorShower) ∧
    ((m - 1) % 3 = 2 → ¬(isMeteorYear m = true ∧ seasonIndex m = 1) →
        (scheduledEvent .playing m r).map Prod.fst =
          some (seasonCycle ((m / 3 - 1) % 4)) ∧
        seasonIndex m = (m / 3 - 1) % 4) ∧
    ((m - 1) % 3 = 2 → seasonIndex m = 0 →
        scheduledEvent .playing m r =
          some (.storm, some (if r then .left else .right))) ∧
    (∀ st : GameStatus, st ≠ .playing → scheduledEvent st m r = none) := by
  have hst : ∀ st : GameStatus, st ≠ .playing →
      scheduledEvent st m r = none := by
    intro st h
    rw [scheduledEvent, if_pos h]
  have hdec : ((scheduledEvent .playing m r).isSome = true ↔
        (m - 1) % 3 = 2) ∧
      ((m - 1) % 3 = 2 → 2 ≤ yearOf m → (yearOf m - 2) % 3 = 0 →
        seasonIndex m = 1 →
        (scheduledEvent .playing m r).map Prod.fst = some .meteorShower) ∧
      ((m - 1) % 3 = 2 → ¬(isMeteorYear m = true ∧ seasonIndex m = 1) →
        (scheduledEvent .playing m r).map Prod.fst =
          some (seasonCycle ((m / 3 - 1) % 4)) ∧
        seasonIndex m = (m / 3 - 1) % 4) ∧
      ((m - 1) % 3 = 2 → seasonIndex m = 0 →
        scheduledEvent .playing m r =
          some (.storm, some (if r then .left else .right))) := by
    interval_cases m <;> cases r <;>
      exact ⟨by decide, by decide, by decide, by decide⟩
  exact ⟨hdec.1, hdec.2.1, hdec.2.2.1, hdec.2.2.2, hst⟩

/-- Instantiation of C5 at month 6 (year 1 summer: thunderstorm, since the
meteor-year condition needs year at least 2). -/
theorem C5_event_schedule_witness :
    ((scheduledEvent .playing 6 true).isSome = true ↔ (6 - 1) % 3 = 2) ∧
    ((6 - 1) % 3 = 2 → 2 ≤ yearOf 6 → (yearOf 6 - 2) % 3 = 0 →
        seasonIndex 6 = 1 →
        (scheduledEvent .playing 6 true).map Prod.fst = some .meteorShower) ∧
    ((6 - 1) % 3 = 2 → ¬(isMeteorYear 6 = true ∧ seasonIndex 6 = 1) →
        (scheduledEvent .playing 6 true).map Prod.fst =
          some (seasonCycle ((6 / 3 - 1) % 4)) ∧
        seasonIndex 6 = (6 / 3 - 1) % 4) ∧
    ((6 - 1) % 3 = 2 → seasonIndex 6 = 0 →
        scheduledEvent .playing 6 true =
          some (.storm, some (if true then .left else .right))) ∧
    (∀ st : GameStatus, st ≠ .playing → scheduledEvent st 6 true = none) :=
  C5_event_schedule 6 true (by norm_num) (by norm_num)

/-- Skill record (src/types.ts, `Skill`). -/
structure Skill where
  id : String
  title : String
  description : String
  color : String
deriving DecidableEq, Repr

/-- src/game/skills.ts, `PERMANENT_SKILL_POOL` (3 skills). -/
def PERMANENT_SKILL_POOL : List Skill :=
  [{ id := "shellFortification", title := "Shell Fortification",
     description := "Permanently increases your maximum Shell HP by 5.",
     color := "text-green-400" },
   { id := "increasedAgility", title := "Increased Agility",
     description := "Permanently increases your maximum movement speed.",
     color := "text-blue-400" },
   { id := "soothingRains", title := "Soothing Rains",
     description := "Permanently increases the frequency of healing water drops.",
     color := "text-cyan-400" }]

/-- src/game/skills.ts, `EVENT_SKILL_POOL` (3 skills). -/
def EVENT_SKILL_POOL : List Skill :=
  [{ id := "waterAffinity", title := "Water Affinity",
     description := "Permanently increases the healing from all water drops by 1. This effect stacks.",
     color := "text-sky-400" },
   { id := "blockChance", title := "Stone Shell",
     description := "Permanently increase your chance to block rock damage by 10%. This effect stacks.",
     color := "text-purple-400" },
   { id := "extraLife", title := "Phoenix Kernel",
     description := "Gain an extra life. If your shell breaks, you are instantly revived with full HP. This effect is permanent and stacks.",
     color := "text-yellow-400" }]

/-- src/game/skills.ts, `YEARLY_SKILL_POOL` — it contains only 2 skills. -/
def YEARLY_SKILL_POOL : List Skill :=
  [{ id := "photosynthesis", title := "Photosynthesis",
     description := "Regenerate 1 HP for every second you stand still. Stacks increase this amount.",
     color := "text-emerald-400" },
   { id := "goldenTouch", title := "Golden Touch",
     description := "Gain a 5% chance for destroyed rocks to grant 10x score. Stacks increase chance.",
     color := "text-amber-400" }]

/-- Pool selection of `handleLevelUp` (useGameLogic.ts lines 338 and
355-369): yearly pool when the ended month closes a season block and is a
positive multiple of 12, event pool at other block-closing months,
permanent pool otherwise. -/
def levelUpSkillPool (monthCounter : ℕ) : List Skill :=
  if (monthCounter - 1) % 3 = 2 then
    if 0 < monthCounter ∧ monthCounter % 12 = 0 then YEARLY_SKILL_POOL
    else EVENT_SKILL_POOL
  else PERMANENT_SKILL_POOL

/-- The offer of `handleLevelUp`: the first three entries of the shuffled
pool (the slice(0,3) of lines 358-368). -/
def offeredSkills (shuffled : List Skill) : List Skill := List.take 3 shuffled

theorem levelUpSkillPool_nodup (m : ℕ) : (levelUpSkillPool m).Nodup := by
  unfold levelUpSkillPool
  split_ifs <;> decide

/-- C7 as stated is false on the code: at month 12 the pool is the yearly
pool, which holds only 2 skills, so slice(0,3) of any shuffle of it offers
2 skills, not 3. -/
theorem C7_counterexample :
    levelUpSkillPool 12 = YEARLY_SKILL_POOL ∧
    (offeredSkills YEARLY_SKILL_POOL).length = 2 ∧
    ¬(offeredSkills YEARLY_SKILL_POOL).length = 3 := by
  refine ⟨?_, rfl, by decide⟩
  rfl

/-- C7 amended: every 30-second level-up offers min(3, pool size) distinct
skills drawn without replacement from the pool determined by month type —
exactly 3 from the permanent pool (ordinary months) and from the event
pool (block-closing months not multiple of 12), but only 2 at yearly
months (block-closing multiples of 12), because the yearly pool has just
2 skills. -/
theorem C7_level_up_offer (m : ℕ) (shuffled : List Skill)
    (hp : shuffled.Perm (levelUpSkillPool m)) :
    (offeredSkills shuffled).length = min 3 (levelUpSkillPool m).length ∧
    (∀ sk ∈ offeredSkills shuffled, sk ∈ levelUpSkillPool m) ∧
    (offeredSkills shuffled).Nodup ∧
    ((m - 1) % 3 = 2 → 0 < m → m % 12 = 0 →
        levelUpSkillPool m = YEARLY_SKILL_POOL ∧
        (offeredSkills shuffled).length = 2) ∧
    ((m - 1) % 3 = 2 → ¬m % 12 = 0 →
        levelUpSkillPool m = EVENT_SKILL_POOL ∧
        (offeredSkills shuffled).length = 3) ∧
    (¬(m - 1) % 3 = 2 →
        levelUpSkillPool m = PERMANENT_SKILL_POOL ∧
        (offeredSkills shuffled).length = 3) := by
  have hlen : (offeredSkills shuffled).length =
      min 3 (levelUpSkillPool m).length := by
    rw [offeredSkills, List.length_take, hp.length_eq]
  have hmem : ∀ sk ∈ offeredSkills shuffled, sk ∈ levelUpSkillPool m := by
    intro sk hsk
    exact hp.mem_iff.mp (List.mem_of_mem_take hsk)
  have hnd : (offeredSkills shuffled).Nodup :=
    List.Nodup.sublist (List.take_sublist 3 shuffled)
      (hp.nodup_iff.mpr (levelUpSkillPool_nodup m))
  refine ⟨hlen, hmem, hnd, ?_, ?_, ?_⟩
  · intro h3 h0 h12
    have hpool : levelUpSkillPool m = YEARLY_SKILL_POOL := by
      unfold levelUpSkillPool
      rw [if_pos h3, if_pos ⟨h0, h12⟩]
    exact ⟨hpool, by rw [hlen, hpool]; decide⟩
  · intro h3 h12
    have hpool : levelUpSkillPool m = EVENT_SKILL_POOL := by
      unfold levelUpSkillPool
      rw [if_pos h3, if_neg (fun hc => h12 hc.2)]
    exact ⟨hpool, by rw [hlen, hpool]; decide⟩
  · intro h3
    have hpool : levelUpSkillPool m = PERMANENT_SKILL_POOL := by
      unfold levelUpSkillPool
      rw [if_neg h3]
    exact ⟨hpool, by rw [hlen, hpool]; decide⟩

/-- Instantiation of the amended C7 at the first event month with the
identity shuffle of the event pool. -/
theorem C7_level_up_offer_witness :
    (offeredSkills EVENT_SKILL_POOL).length =
      min 3 (levelUpSkillPool 3).length ∧
    (∀ sk ∈ offeredSkills EVENT_SKILL_POOL, sk ∈ levelUpSkillPool 3) ∧
    (offeredSkills EVENT_SKILL_POOL).Nodup ∧
    ((3 - 1) % 3 = 2 → 0 < 3 → 3 % 12 = 0 →
        levelUpSkillPool 3 = YEARLY_SKILL_POOL ∧
        (offeredSkills EVENT_SKILL_POOL).length = 2) ∧
    ((3 - 1) % 3 = 2 → ¬3 % 12 = 0 →
        levelUpSkillPool 3 = EVENT_SKILL_POOL ∧
        (offeredSkills EVENT_SKILL_POOL).length = 3) ∧
    (¬(3 - 1) % 3 = 2 →
        levelUpSkillPool 3 = PERMANENT_SKILL_POOL ∧
        (offeredSkills EVENT_SKILL_POOL).length = 3) :=
  C7_level_up_offer 3 EVENT_SKILL_POOL (by rw [(by rfl :
    levelUpSkillPool 3 = EVENT_SKILL_POOL)])

/-- The progression and stat state read and written by `handleLevelUp`
and `handleSkillSelect` (useGameLogic.ts). -/
structure ProgressState where
  monthCounter : ℕ
  difficultyLevel : ℕ
  timeInMonth : ℚ
  status : GameStatus
  currentEvent : Option GameEventKind
  windDirection : Option WindDir
  maxHealth : ℚ
  maxSpeed : ℚ
  bonusHeal : ℚ
  waterSpawnInterval : ℚ
  extraLives : ℕ
  blockChance : ℚ
  photosynthesisLevel : ℕ
  goldenTouchChance : ℚ
deriving DecidableEq, Repr

/-- `handleLevelUp` (useGameLogic.ts lines 332-370) on the progression
state: clear the running event (and wind) if any, increment
difficultyLevel, enter the levelUp status. monthCounter is untouched. -/
def handleLevelUp (s : ProgressState) : ProgressState :=
  let s1 := if s.currentEvent.isSome then
      { s with currentEvent := none, windDirection := none }
    else s
  { s1 with difficultyLevel := s1.difficultyLevel + 1, status := .levelUp }

/-- The skill-effect switch of `handleSkillSelect` (lines 488-513). -/
def applySkillEffect (s : ProgressState) (skillId : String) : ProgressState :=
  if skillId = "shellFortification" then
    { s with maxHealth := s.maxHealth + 5 }
  else if skillId = "increasedAgility" then
    { s with maxSpeed := s.maxSpeed + 40 }
  else if skillId = "waterAffinity" then
    { s with bonusHeal := s.bonusHeal + 1 }
  else if skillId = "soothingRains" then
    { s with waterSpawnInterval := s.waterSpawnInterval * (9/10) }
  else if skillId = "extraLife" then
    { s with extraLives := s.extraLives + 1 }
  else if skillId = "blockChance" then
    { s with blockChance := min (s.blockChance + 1/10) (9/10) }
  else if skillId = "photosynthesis" then
    { s with photosynthesisLevel := s.photosynthesisLevel + 1 }
  else if skillId = "goldenTouch" then
    { s with goldenTouchChance :=
        s.goldenTouchChance + GOLDEN_TOUCH_CHANCE_INCREASE }
  else s

/-- `handleSkillSelect` (lines 482-519): apply the effect, then advance
monthCounter by one, reset timeInMonth and resume playing. -/
def handleSkillSelect (s : ProgressState) (skillId : String) : ProgressState :=
  let s1 := applySkillEffect s skillId
  { s1 with monthCounter := s1.monthCounter + 1, timeInMonth := 0,
            status := .playing }

theorem applySkillEffect_frame (s : ProgressState) (skillId : String) :
    (applySkillEffect s skillId).monthCounter = s.monthCounter ∧
    (applySkillEffect s skillId).timeInMonth = s.timeInMonth ∧
    (applySkillEffect s skillId).status = s.status ∧
    (applySkillEffect s skillId).difficultyLevel = s.difficultyLevel := by
  unfold applySkillEffect
  split_ifs <;> exact ⟨rfl, rfl, rfl, rfl⟩

/-- The progression state in which the C8 counterexample is evaluated: a
level-up screen one tick after the fourth month boundary. -/
def cexProg : ProgressState :=
  { monthCounter := 4, difficultyLevel := 5, timeInMonth := 30,
    status := .levelUp, currentEvent := none, windDirection := none,
    maxHealth := 20, maxSpeed := 300, bonusHeal := 0,
    waterSpawnInterval := 2500, extraLives := 0, blockChance := 0,
    photosynthesisLevel := 0, goldenTouchChance := 0 }

/-- C8 as stated is false on the code: selecting a skill advances
monthCounter by one (it is `handleLevelUp` at boundary time that leaves
monthCounter alone, incrementing only difficultyLevel). -/
theorem C8_counterexample :
    cexProg.monthCounter = 4 ∧
    (handleSkillSelect cexProg "shellFortification").monthCounter = 5 ∧
    ¬(handleSkillSelect cexProg "shellFortification").monthCounter =
        cexProg.monthCounter := by
  refine ⟨rfl, rfl, by decide⟩

/-- C8 amended: selecting a skill applies the skill's numeric effect,
resets timeInMonth to 0, resumes the playing status, and increments
monthCounter by one — the boundary-time handleLevelUp advanced only
difficultyLevel and left monthCounter unchanged. -/
theorem C8_skill_select_effects (s : ProgressState) (skillId : String) :
    (handleSkillSelect s skillId).timeInMonth = 0 ∧
    (handleSkillSelect s skillId).status = .playing ∧
    (handleSkillSelect s skillId).monthCounter = s.monthCounter + 1 ∧
    (handleLevelUp s).monthCounter = s.monthCounter ∧
    (handleLevelUp s).difficultyLevel = s.difficultyLevel + 1 ∧
    (handleLevelUp s).status = .levelUp ∧
    (handleSkillSelect s "shellFortification").maxHealth = s.maxHealth + 5 ∧
    (handleSkillSelect s "increasedAgility").maxSpeed = s.maxSpeed + 40 ∧
    (handleSkillSelect s "waterAffinity").bonusHeal = s.bonusHeal + 1 ∧
    (handleSkillSelect s "soothingRains").waterSpawnInterval =
      s.waterSpawnInterval * (9/10) ∧
    (handleSkillSelect s "extraLife").extraLives = s.extraLives + 1 ∧
    (handleSkillSelect s "blockChance").blockChance =
      min (s.blockChance + 1/10) (9/10) ∧
    (handleSkillSelect s "photosynthesis").photosynthesisLevel =
      s.photosynthesisLevel + 1 ∧
    (handleSkillSelect s "goldenTouch").goldenTouchChance =
      s.goldenTouchChance + GOLDEN_TOUCH_CHANCE_INCREASE := by
  have hf := applySkillEffect_frame s skillId
  refine ⟨rfl, rfl, ?_, ?_, ?_, rfl, ?_, ?_, ?_, ?_, ?_, ?_, ?_, ?_⟩
  · show (applySkillEffect s skillId).monthCounter + 1 = s.monthCounter + 1
    rw [hf.1]
  · unfold handleLevelUp
    dsimp only
    split_ifs <;> rfl
  · unfold handleLevelUp
    dsimp only
    split_ifs <;> rfl
  all_goals rfl

/-- Hazard spawn interval (useGameLogic.ts lines 907-913, identical in
spawnElements): the base interval shrunk by 0.92 per elapsed month,
divided by the viewport width ratio, then adjusted per active event
(earthquake divides by 1.5, thunderstorm doubles, meteor shower times
1.25). -/
def hazardSpawnInterval (monthCounter : ℕ) (width : ℚ)
    (currentEvent : Option GameEventKind) : ℚ :=
  let widthRatio := width / 800
  let base :=
    ELEMENT_SPAWN_INTERVAL * (92/100 : ℚ) ^ (monthCounter - 1) / widthRatio
  match currentEvent with
  | some .earthquake => base / (3/2)
  | some .thunderstorm => base * 2
  | some .meteorShower => base * (5/4)
  | _ => base

/-- C9: holding the event and the viewport width fixed, the hazard spawn
interval is strictly decreasing in monthCounter and strictly positive for
every monthCounter at least 1 — it approaches but never reaches 0. -/
theorem C9_spawn_interval_mono (m : ℕ) (hm : 1 ≤ m) (width : ℚ)
    (hw : 0 < width) (ev : Option GameEventKind) :
    hazardSpawnInterval (m + 1) width ev < hazardSpawnInterval m width ev ∧
    0 < hazardSpawnInterval m width ev := by
  have hwr : 0 < width / 800 := by positivity
  have hpw : (92/100 : ℚ) ^ (m + 1 - 1) < (92/100 : ℚ) ^ (m - 1) :=
    pow_lt_pow_right_of_lt_one₀ (by norm_num) (by norm_num) (by omega)
  have hb : (0 : ℚ) <
      ELEMENT_SPAWN_INTERVAL * (92/100 : ℚ) ^ (m - 1) / (width / 800) := by
    unfold ELEMENT_SPAWN_INTERVAL
    positivity
  have hbl : ELEMENT_SPAWN_INTERVAL * (92/100 : ℚ) ^ (m + 1 - 1) /
        (width / 800) <
      ELEMENT_SPAWN_INTERVAL * (92/100 : ℚ) ^ (m - 1) / (width / 800) := by
    apply (div_lt_div_iff_of_pos_right hwr).mpr
    have hE : (0 : ℚ) < ELEMENT_SPAWN_INTERVAL := by
      unfold ELEMENT_SPAWN_INTERVAL; norm_num
    exact mul_lt_mul_of_pos_left hpw hE
  rcases ev with _ | ek
  · exact ⟨hbl, hb⟩
  · cases ek
    · exact ⟨hbl, hb⟩
    · exact ⟨by unfold hazardSpawnInterval; dsimp only; linarith,
             by unfold hazardSpawnInterval; dsimp only; linarith⟩
    · exact ⟨by unfold hazardSpawnInterval; dsimp only; linarith,
             by unfold hazardSpawnInterval; dsimp only; linarith⟩
    · exact ⟨hbl, hb⟩
    · exact ⟨by unfold hazardSpawnInterval; dsimp only; linarith,
             by unfold hazardSpawnInterval; dsimp only; linarith⟩

/-- Instantiation of C9 at month 1 on an 800-wide viewport without an
event. -/
theorem C9_spawn_interval_mono_witness :
    hazardSpawnInterval 2 800 none < hazardSpawnInterval 1 800 none ∧
    0 < hazardSpawnInterval 1 800 none :=
  C9_spawn_interval_mono 1 (le_refl 1) 800 (by norm_num) none

end Pistachio
